import Mathlib

/-!
Verification development for the PatientScheme backend (Python sources
`app.py`, `utils.py`, `app1.py`).

The embedding models Python JSON-like values as the inductive `PyVal`,
fallible Python code (dict-key lookups that can raise `KeyError`) as
`Option`-valued functions, and calls to the external storage collaborator
as oracle response parameters together with an explicit trace of the
storage operations the code issues (`Op`).  Random 128-bit UUID values are
passed in as a `Nat` argument.
-/

namespace PatientScheme

/-- Model of the Python/JSON values the code manipulates: `None`, strings,
integers, dicts (association lists, first binding wins) and lists. -/
inductive PyVal where
  | vnone : PyVal
  | vstr (s : String) : PyVal
  | vint (n : Int) : PyVal
  | vdict (fields : List (String × PyVal)) : PyVal
  | vlist (items : List PyVal) : PyVal

mutual

/-- Structural equality on modelled Python values (Python `==` for the
shapes the code compares). -/
def PyVal.beq : PyVal → PyVal → Bool
  | .vnone, .vnone => true
  | .vstr a, .vstr b => a == b
  | .vint a, .vint b => a == b
  | .vdict a, .vdict b => PyVal.beqFields a b
  | .vlist a, .vlist b => PyVal.beqItems a b
  | _, _ => false

/-- Structural equality on dict field lists. -/
def PyVal.beqFields : List (String × PyVal) → List (String × PyVal) → Bool
  | [], [] => true
  | (k1, v1) :: t1, (k2, v2) :: t2 =>
      k1 == k2 && PyVal.beq v1 v2 && PyVal.beqFields t1 t2
  | _, _ => false

/-- Structural equality on value lists. -/
def PyVal.beqItems : List PyVal → List PyVal → Bool
  | [], [] => true
  | a :: t1, b :: t2 => PyVal.beq a b && PyVal.beqItems t1 t2
  | _, _ => false

end

/-- Python truthiness for the modelled values: `None`, `""`, `0`, `\x7b\x7d` and
`[]` are falsy, everything else is truthy. -/
def truthy : PyVal → Bool
  | .vnone => false
  | .vstr s => s != ""
  | .vint n => n != 0
  | .vdict fs => !fs.isEmpty
  | .vlist xs => !xs.isEmpty

/-- First binding for key `k` in an association list, or the default `d`. -/
def lookupField : List (String × PyVal) → String → PyVal → PyVal
  | [], _, d => d
  | (k1, v) :: t, k, d => if k1 = k then v else lookupField t k d

/-- Python `d.get(k, default)` on a dict value. -/
def dgetD (v : PyVal) (k : String) (d : PyVal) : PyVal :=
  match v with
  | .vdict fs => lookupField fs k d
  | _ => d

/-- Python `d.get(k)` on a dict value (default `None`). -/
def dget (v : PyVal) (k : String) : PyVal := dgetD v k .vnone

/-- Python `isinstance(v, dict)`. -/
def isDict : PyVal → Bool
  | .vdict _ => true
  | _ => false

/-- Python `a or b`: `a` when truthy, else `b`. -/
def pyOr (a b : PyVal) : PyVal := if truthy a then a else b

/-- Lowercase hexadecimal digit character for `n < 16`. -/
def hexChar (n : Nat) : Char :=
  if n < 10 then Char.ofNat (48 + n) else Char.ofNat (87 + n)

/-- The 32 lowercase hex characters of `uuid.hex` for the 128-bit value `u`,
most significant digit first. -/
def uuidHexChars (u : Nat) : List Char :=
  (List.range 32).map (fun i => hexChar (u / 16 ^ (31 - i) % 16))

/-- Python `uuid.hex`: the 32-character lowercase hex string. -/
def uuidHex (u : Nat) : String := String.mk (uuidHexChars u)

/-- Python `str(uuid)`: canonical lowercase 8-4-4-4-12 hyphenated form. -/
def uuidCanonicalChars (u : Nat) : List Char :=
  let h := uuidHexChars u
  h.take 8 ++ '-' :: (h.drop 8).take 4 ++ '-' :: (h.drop 12).take 4
    ++ '-' :: (h.drop 16).take 4 ++ '-' :: h.drop 20

namespace App

/-- `app.py` line 30: the fee dict `\x7b"Silver": 250, "Gold": 500,
"Platinum": 1000\x7d`; `none` models a `KeyError` on lookup. -/
def feeTable (s : String) : Option Nat :=
  if s = "Silver" then some 250
  else if s = "Gold" then some 500
  else if s = "Platinum" then some 1000
  else none

/-- `app.py` line 42: the discount dict; `none` models a `KeyError`. -/
def discountTable (s : String) : Option String :=
  if s = "Silver" then some "5%"
  else if s = "Gold" then some "10%"
  else if s = "Platinum" then some "15%"
  else none

/-- Fee lookup keyed by an arbitrary Python value: only the three string
keys are present in the dict. -/
def feeTableP : PyVal → Option Nat
  | .vstr s => feeTable s
  | _ => none

/-- Discount lookup keyed by an arbitrary Python value. -/
def discountTableP : PyVal → Option String
  | .vstr s => discountTable s
  | _ => none

/-- The JSON result built by the `/generate-card` endpoint. -/
structure CardResult where
  family_name : PyVal
  address : PyVal
  income : Int
  scheme : PyVal
  fee : Nat
  card_number : String
  discount : String

/-- `app.py` line 33: `str(uuid.uuid4())[:8]` — the first 8 characters of
the canonical UUID string. -/
def card_number_of (u : Nat) : String :=
  String.mk ((uuidCanonicalChars u).take 8)

/-- `app.py` `generate_card` (lines 21-45): `scheme_req` is
`data.get("scheme")` as an `Option` (`none` when the key is absent, in
which case the Python default `"Silver"` applies); the result is `none`
exactly when the Python code raises a `KeyError` in a dict lookup. -/
def generate_card (family_name address : PyVal) (income : Int)
    (scheme_req : Option PyVal) (card_number : String) : Option CardResult :=
  let gscheme : PyVal :=
    if income < 100000 then .vstr "Silver" else scheme_req.getD (.vstr "Silver")
  let feeRes : Option Nat :=
    if income < 100000 then some 0 else feeTableP gscheme
  match feeRes, discountTableP gscheme with
  | some fee, some d =>
      some ⟨family_name, address, income, gscheme, fee, card_number, d⟩
  | _, _ => none

end App

/-- A standardized supabase response as produced by `utils._resp_data`:
a `data` list of row values (or Python `None`) and an `error` value
(or Python `None`). -/
structure Resp where
  data : Option (List PyVal)
  error : Option PyVal

/-- Python `if parsed.get("error"):` on a standardized response: the error
entry exists and is truthy. -/
def errTruthy (r : Resp) : Bool :=
  match r.error with
  | some e => truthy e
  | none => false

/-- The family row payload inserted by `utils.create_family`
(lines 105-112 of `utils.py`). -/
structure FamilyPayload where
  user_id : PyVal
  family_name : PyVal
  address : PyVal
  annual_income : Int
  scheme_type : String
  card_number : String

/-- A member row payload built by `utils.create_family`
(lines 130-135 of `utils.py`): the fields come from `m.get(...)`. -/
structure MemberPayload where
  family_id : PyVal
  name : PyVal
  relation : PyVal
  age : PyVal

/-- A storage operation issued against the external collaborator's tables. -/
inductive Op where
  | insertFamily (payload : FamilyPayload) : Op
  | insertMembers (rows : List MemberPayload) : Op
  | selectFamilies (user_id : PyVal) : Op
  | updateFamily (family_id : Int) (updates : List (String × PyVal)) : Op
  | updateMember (member_id : Int) (updates : List (String × PyVal)) : Op
  | deleteMember (member_id : Int) : Op

/-- The dict returned by `utils.create_family`: either `\x7b"error": e\x7d`
or `\x7b"family": row, "members": rows-or-None\x7d`. -/
inductive CFResult where
  | error (e : PyVal) : CFResult
  | ok (family : PyVal) (members : Option (List PyVal)) : CFResult

namespace Utils

/-- `utils.py` line 84-85: `_generate_card_number` returns
`"CARD-" + uuid4().hex[:10].upper()` for the 128-bit value `u`. -/
def _generate_card_number (u : Nat) : String :=
  "CARD-" ++ String.mk (((uuidHexChars u).take 10).map Char.toUpper)

/-- `utils.py` lines 97-100: the scheme rule inside `create_family`.
`chosen_scheme` is the raw request value (possibly `None` or a non-string). -/
def assign_scheme (annual_income : Int) (chosen_scheme : PyVal) : String :=
  if annual_income < 100000 then "Silver"
  else
    match chosen_scheme with
    | .vstr s =>
        if s = "Silver" ∨ s = "Gold" ∨ s = "Platinum" then s else "Silver"
    | _ => "Silver"

/-- `utils.py` `create_family` (lines 88-143).  The storage collaborator's
responses to the family insert and the member insert are the oracle
parameters `famResp` and `memResp`; `u` is the random 128-bit value consumed
by `_generate_card_number`.  Returns the function's result together with the
trace of storage operations it issued, in order. -/
def create_family (user_id family_name address : PyVal) (annual_income : Int)
    (members : List PyVal) (chosen_scheme : PyVal) (u : Nat)
    (famResp memResp : Resp) : CFResult × List Op :=
  let scheme := assign_scheme annual_income chosen_scheme
  let card_number := _generate_card_number u
  let family_payload : FamilyPayload :=
    ⟨user_id, family_name, address, annual_income, scheme, card_number⟩
  if errTruthy famResp then
    (.error (famResp.error.getD .vnone), [.insertFamily family_payload])
  else
    match famResp.data with
    | none =>
        (.error (.vstr "Family insert returned no data."),
         [.insertFamily family_payload])
    | some [] =>
        (.error (.vstr "Family insert returned no data."),
         [.insertFamily family_payload])
    | some (family_record :: _) =>
        let family_id := dget family_record "id"
        if members.isEmpty then
          (.ok family_record (some []), [.insertFamily family_payload])
        else
          let to_insert := members.map (fun m =>
            MemberPayload.mk family_id (dget m "name") (dget m "relation")
              (dget m "age"))
          if errTruthy memResp then
            (.error (memResp.error.getD .vnone),
             [.insertFamily family_payload, .insertMembers to_insert])
          else
            (.ok family_record memResp.data,
             [.insertFamily family_payload, .insertMembers to_insert])

/-- `utils.py` lines 146-147: `get_families_for_user` issues one referenced
select and returns the standardized response. -/
def get_families_for_user (user_id : PyVal) (selResp : Resp) :
    Resp × List Op :=
  (selResp, [.selectFamilies user_id])

/-- `utils.py` lines 155-157: `update_family` passes the caller's partial
fields verbatim to the storage update filtered on `id`. -/
def update_family (family_id : Int) (updates : List (String × PyVal))
    (updResp : Resp) : Resp × List Op :=
  (updResp, [.updateFamily family_id updates])

/-- `utils.py` lines 160-162: `update_member`. -/
def update_member (member_id : Int) (updates : List (String × PyVal))
    (updResp : Resp) : Resp × List Op :=
  (updResp, [.updateMember member_id updates])

/-- `utils.py` lines 165-167: `delete_member`. -/
def delete_member (member_id : Int) (delResp : Resp) : Resp × List Op :=
  (delResp, [.deleteMember member_id])

end Utils

namespace Storage

/-- Python-style dict assignment on an association list: overwrite the
first binding of `k` if present, else append. -/
def dset (fs : List (String × PyVal)) (k : String) (v : PyVal) :
    List (String × PyVal) :=
  if fs.any (fun p => p.1 = k) then
    fs.map (fun p => if p.1 = k then (k, v) else p)
  else fs ++ [(k, v)]

/-- Modelled from the spec: the external storage collaborator's row update
(not part of this repository's sources) — a partial update "applies exactly
the caller-given fields" to a row, leaving every other column unchanged. -/
def applyFields (updates : List (String × PyVal)) (row : PyVal) : PyVal :=
  match row with
  | .vdict fs => .vdict (updates.foldl (fun acc kv => dset acc kv.1 kv.2) fs)
  | r => r

/-- Modelled from the spec: the effect on a stored table of the collaborator
executing `update(...).eq("id", rowId)` — every row whose `id` column equals
`rowId` receives the partial update. -/
def updateRows (table : List PyVal) (rowId : PyVal)
    (updates : List (String × PyVal)) : List PyVal :=
  table.map (fun r => if PyVal.beq (dget r "id") rowId then
    applyFields updates r else r)

end Storage

/-- Helper for `pySplit`: scan the characters, accumulating the current
word in reverse. -/
def splitWsAux : List Char → List Char → List String
  | [], acc => if acc.isEmpty then [] else [String.mk acc.reverse]
  | c :: rest, acc =>
      if c.isWhitespace then
        if acc.isEmpty then splitWsAux rest []
        else String.mk acc.reverse :: splitWsAux rest []
      else splitWsAux rest (c :: acc)

/-- Python `s.split()` with no argument: split on whitespace runs,
discarding empty pieces. -/
def pySplit (s : String) : List String := splitWsAux s.toList []

/-- Python `s.lower()`: lowercase character by character. -/
def strLower (s : String) : String := String.mk (s.toList.map Char.toLower)

namespace App1

/-- Outcome of `require_auth` in `app1.py`: a resolved user id, or an
error message together with the HTTP status 401. -/
inductive AuthResult where
  | ok (user_id : PyVal) : AuthResult
  | err (msg : PyVal) (code : Nat) : AuthResult

/-- `app1.py` lines 14-21: `_get_bearer_token` on the raw header string
(`""` when the header is absent). -/
def _get_bearer_token (auth : String) : Option String :=
  if auth = "" then none
  else
    match pySplit auth with
    | [p0, p1] => if strLower p0 = "bearer" then some p1 else none
    | _ => none

/-- `app1.py` lines 29-48: the part of `require_auth` that resolves a user
id from the parsed token-verification response (the result of
`utils.get_user_from_token`), handling the several dict shapes. -/
def resolve_user_id (user_parsed : PyVal) : AuthResult :=
  if truthy (dget user_parsed "error") then
    .err (dget user_parsed "error") 401
  else
    let data := dget user_parsed "data"
    let user : PyVal :=
      if isDict data && truthy (dget data "user") then dget data "user"
      else if isDict data then data else .vnone
    if !truthy user then
      .err (.vstr "Invalid token / could not resolve user") 401
    else
      let uid0 := pyOr (dget user "id") (dget (dgetD user "user" (.vdict [])) "id")
      let uid :=
        if !truthy uid0 then
          (if isDict data then dget data "id" else .vnone)
        else uid0
      if !truthy uid then .err (.vstr "Unable to determine user id") 401
      else .ok uid

/-- `app1.py` `require_auth` (lines 24-48): extract the bearer token from
the Authorization header (`none` when absent), then resolve the user from
the external verifier's response; `verify` is the oracle for
`utils.get_user_from_token`. -/
def require_auth (authHeader : Option String) (verify : String → PyVal) :
    AuthResult :=
  match _get_bearer_token (authHeader.getD "") with
  | none => .err (.vstr "Missing Authorization Bearer token") 401
  | some token => resolve_user_id (verify token)

/-- `jsonify` of a standardized response dict. -/
def respToPy (r : Resp) : PyVal :=
  .vdict [("data", match r.data with
             | none => .vnone
             | some rows => .vlist rows),
          ("error", r.error.getD .vnone)]

/-- `app1.py` `/create-family` route (lines 94-111): status code, JSON
body, and the trace of storage operations issued. -/
def route_create_family (authHeader : Option String) (verify : String → PyVal)
    (family_name address : PyVal) (annual_income : Int) (members : List PyVal)
    (chosen_scheme : PyVal) (u : Nat) (famResp memResp : Resp) :
    Nat × PyVal × List Op :=
  match require_auth authHeader verify with
  | .err m c => (c, .vdict [("error", m)], [])
  | .ok user_id =>
      if !truthy family_name then
        (400, .vdict [("error", .vstr "family_name required")], [])
      else
        match Utils.create_family user_id family_name address annual_income
            members chosen_scheme u famResp memResp with
        | (.error e, ops) => (400, .vdict [("error", e)], ops)
        | (.ok fam mems, ops) =>
            (200, .vdict [("family", fam),
              ("members", match mems with
                 | none => .vnone
                 | some rows => .vlist rows)], ops)

/-- `app1.py` `/families` route (lines 114-119). -/
def route_get_families (authHeader : Option String) (verify : String → PyVal)
    (selResp : Resp) : Nat × PyVal × List Op :=
  match require_auth authHeader verify with
  | .err m c => (c, .vdict [("error", m)], [])
  | .ok user_id =>
      match Utils.get_families_for_user user_id selResp with
      | (res, ops) => (200, respToPy res, ops)

/-- `app1.py` `PUT /family/(family_id)` route (lines 123-132). -/
def route_update_family (authHeader : Option String) (verify : String → PyVal)
    (family_id : Int) (updates : List (String × PyVal)) (updResp : Resp) :
    Nat × PyVal × List Op :=
  match require_auth authHeader verify with
  | .err m c => (c, .vdict [("error", m)], [])
  | .ok _ =>
      match Utils.update_family family_id updates updResp with
      | (res, ops) => (200, respToPy res, ops)

/-- `app1.py` `PUT /member/(member_id)` route (lines 135-141). -/
def route_update_member (authHeader : Option String) (verify : String → PyVal)
    (member_id : Int) (updates : List (String × PyVal)) (updResp : Resp) :
    Nat × PyVal × List Op :=
  match require_auth authHeader verify with
  | .err m c => (c, .vdict [("error", m)], [])
  | .ok _ =>
      match Utils.update_member member_id updates updResp with
      | (res, ops) => (200, respToPy res, ops)

/-- `app1.py` `DELETE /member/(member_id)` route (lines 144-149). -/
def route_delete_member (authHeader : Option String) (verify : String → PyVal)
    (member_id : Int) (delResp : Resp) : Nat × PyVal × List Op :=
  match require_auth authHeader verify with
  | .err m c => (c, .vdict [("error", m)], [])
  | .ok _ =>
      match Utils.delete_member member_id delResp with
      | (res, ops) => (200, respToPy res, ops)

end App1

/-! ### Helper lemmas -/

theorem uuidHexChars_length (u : Nat) : (uuidHexChars u).length = 32 := by
  simp [uuidHexChars]

theorem upperHexChar_mem (d : Nat) (hd : d < 16) :
    ("0123456789ABCDEF".toList).contains (Char.toUpper (hexChar d)) = true := by
  interval_cases d <;> decide

theorem lookupField_mapset (fs : List (String × PyVal)) (k k' : String)
    (v d : PyVal) (h : k ≠ k') :
    lookupField (fs.map (fun p => if p.1 = k then (k, v) else p)) k' d
      = lookupField fs k' d := by
  induction fs with
  | nil => rfl
  | cons p t ih =>
      obtain ⟨k1, v1⟩ := p
      by_cases hk : k1 = k
      · subst hk
        have hh : (if (k1, v1).1 = k1 then (k1, v) else (k1, v1)) = (k1, v) :=
          if_pos rfl
        rw [List.map_cons, hh]
        simp [lookupField, h, ih]
      · have hh : (if (k1, v1).1 = k then (k, v) else (k1, v1)) = (k1, v1) :=
          if_neg hk
        rw [List.map_cons, hh]
        simp [lookupField, ih]

theorem lookupField_append_single (fs : List (String × PyVal)) (k k' : String)
    (v d : PyVal) (h : k ≠ k') :
    lookupField (fs ++ [(k, v)]) k' d = lookupField fs k' d := by
  induction fs with
  | nil => simp [lookupField, if_neg h]
  | cons p t ih =>
      obtain ⟨k1, v1⟩ := p
      simp [lookupField, ih]

theorem lookupField_dset_ne (fs : List (String × PyVal)) (k k' : String)
    (v d : PyVal) (h : k ≠ k') :
    lookupField (Storage.dset fs k v) k' d = lookupField fs k' d := by
  unfold Storage.dset
  split
  · exact lookupField_mapset fs k k' v d h
  · exact lookupField_append_single fs k k' v d h

theorem lookupField_foldl_dset (updates : List (String × PyVal))
    (fs : List (String × PyVal)) (k' : String) (d : PyVal)
    (h : k' ∉ updates.map Prod.fst) :
    lookupField
        (updates.foldl (fun acc kv => Storage.dset acc kv.1 kv.2) fs) k' d
      = lookupField fs k' d := by
  induction updates generalizing fs with
  | nil => rfl
  | cons kv t ih =>
      simp only [List.map_cons, List.mem_cons, not_or] at h
      simp only [List.foldl_cons]
      rw [ih (Storage.dset fs kv.1 kv.2) h.2,
        lookupField_dset_ne fs kv.1 k' kv.2 d (fun he => h.1 he.symm)]

theorem dget_applyFields (updates : List (String × PyVal)) (row : PyVal)
    (k' : String) (h : k' ∉ updates.map Prod.fst) :
    dget (Storage.applyFields updates row) k' = dget row k' := by
  cases row <;>
    simp [Storage.applyFields, dget, dgetD, lookupField_foldl_dset _ _ _ _ h]

/-! ### Claims -/

/-- C1: whenever the declared income is strictly below 100000, both scheme
assignment paths (the `/generate-card` endpoint of `app.py` and the rule
inside `create_family` of `utils.py`) assign tier Silver with fee 0 and
discount "5%", for every requested tier value, present, absent or invalid;
in particular the result is never Gold or Platinum. -/
theorem c1_low_income_always_silver (fn addr : PyVal) (income : Int)
    (req : Option PyVal) (cn : String) (v : PyVal) (h : income < 100000) :
    App.generate_card fn addr income req cn
      = some ⟨fn, addr, income, .vstr "Silver", 0, cn, "5%"⟩
    ∧ Utils.assign_scheme income v = "Silver" := by
  constructor
  · unfold App.generate_card
    simp only [if_pos h]
    rfl
  · unfold Utils.assign_scheme
    simp only [if_pos h]

/-- Witness for C1 at income 50000 with requested tier "Platinum". -/
theorem c1_witness :
    App.generate_card .vnone .vnone 50000 (some (.vstr "Platinum")) "c"
      = some ⟨.vnone, .vnone, 50000, .vstr "Silver", 0, "c", "5%"⟩
    ∧ Utils.assign_scheme 50000 (.vstr "Platinum") = "Silver" :=
  c1_low_income_always_silver .vnone .vnone 50000 (some (.vstr "Platinum"))
    "c" (.vstr "Platinum") (by decide)

/-- C2 counterexample: at income 100000 in the `/generate-card` endpoint,
an absent requested tier is assigned Silver with fee 250 — not Silver's
fee 0 from the claimed tier table — and the requested value "Bronze" makes
the fee-dict lookup raise a `KeyError` (modelled `none`) instead of
assigning Silver. -/
theorem c2_counterexample :
    App.generate_card .vnone .vnone 100000 none "c"
      = some ⟨.vnone, .vnone, 100000, .vstr "Silver", 250, "c", "5%"⟩
    ∧ App.generate_card .vnone .vnone 100000 (some (.vstr "Bronze")) "c"
      = none :=
  ⟨rfl, rfl⟩

/-- C2 (amended): for income ≥ 100000, `create_family` keeps a requested
Gold or Platinum tier and falls back to Silver on any other value, while
the `/generate-card` endpoint assigns Gold with (500, "10%"), Platinum with
(1000, "15%"), Silver — requested or absent — with fee 250 (not 0) and
"5%", and raises a `KeyError` for any other requested string. -/
theorem c2_high_income_tiers (fn addr : PyVal) (income : Int) (cn : String)
    (h : 100000 ≤ income) :
    Utils.assign_scheme income (.vstr "Gold") = "Gold"
    ∧ Utils.assign_scheme income (.vstr "Platinum") = "Platinum"
    ∧ Utils.assign_scheme income (.vstr "Silver") = "Silver"
    ∧ (∀ s : String, s ≠ "Silver" → s ≠ "Gold" → s ≠ "Platinum" →
        Utils.assign_scheme income (.vstr s) = "Silver")
    ∧ Utils.assign_scheme income .vnone = "Silver"
    ∧ App.generate_card fn addr income (some (.vstr "Gold")) cn
      = some ⟨fn, addr, income, .vstr "Gold", 500, cn, "10%"⟩
    ∧ App.generate_card fn addr income (some (.vstr "Platinum")) cn
      = some ⟨fn, addr, income, .vstr "Platinum", 1000, cn, "15%"⟩
    ∧ App.generate_card fn addr income none cn
      = some ⟨fn, addr, income, .vstr "Silver", 250, cn, "5%"⟩
    ∧ (∀ s : String, s ≠ "Silver" → s ≠ "Gold" → s ≠ "Platinum" →
        App.generate_card fn addr income (some (.vstr s)) cn = none) := by
  have hn : ¬ income < 100000 := not_lt.mpr h
  refine ⟨?_, ?_, ?_, ?_, ?_, ?_, ?_, ?_, ?_⟩
  · unfold Utils.assign_scheme
    rw [if_neg hn]
    rfl
  · unfold Utils.assign_scheme
    rw [if_neg hn]
    rfl
  · unfold Utils.assign_scheme
    rw [if_neg hn]
    rfl
  · intro s h1 h2 h3
    unfold Utils.assign_scheme
    rw [if_neg hn]
    simp [h1, h2, h3]
  · unfold Utils.assign_scheme
    rw [if_neg hn]
  · unfold App.generate_card
    simp only [if_neg hn]
    rfl
  · unfold App.generate_card
    simp only [if_neg hn]
    rfl
  · unfold App.generate_card
    simp only [if_neg hn]
    rfl
  · intro s h1 h2 h3
    unfold App.generate_card
    simp only [if_neg hn]
    simp [App.feeTableP, App.feeTable, App.discountTableP, App.discountTable,
      h1, h2, h3]

/-- Witness for C2's amended theorem at income 200000 and tier "Bronze"
for the invalid-tier parts. -/
theorem c2_witness :
    Utils.assign_scheme 200000 (.vstr "Gold") = "Gold"
    ∧ Utils.assign_scheme 200000 (.vstr "Platinum") = "Platinum"
    ∧ Utils.assign_scheme 200000 (.vstr "Silver") = "Silver"
    ∧ Utils.assign_scheme 200000 (.vstr "Bronze") = "Silver"
    ∧ Utils.assign_scheme 200000 .vnone = "Silver"
    ∧ App.generate_card .vnone .vnone 200000 (some (.vstr "Gold")) "c"
      = some ⟨.vnone, .vnone, 200000, .vstr "Gold", 500, "c", "10%"⟩
    ∧ App.generate_card .vnone .vnone 200000 (some (.vstr "Platinum")) "c"
      = some ⟨.vnone, .vnone, 200000, .vstr "Platinum", 1000, "c", "15%"⟩
    ∧ App.generate_card .vnone .vnone 200000 none "c"
      = some ⟨.vnone, .vnone, 200000, .vstr "Silver", 250, "c", "5%"⟩
    ∧ App.generate_card .vnone .vnone 200000 (some (.vstr "Bronze")) "c"
      = none := by
  have H := c2_high_income_tiers .vnone .vnone 200000 "c" (by decide)
  exact ⟨H.1, H.2.1, H.2.2.1,
    H.2.2.2.1 "Bronze" (by decide) (by decide) (by decide),
    H.2.2.2.2.1, H.2.2.2.2.2.1, H.2.2.2.2.2.2.1, H.2.2.2.2.2.2.2.1,
    H.2.2.2.2.2.2.2.2 "Bronze" (by decide) (by decide) (by decide)⟩

/-- C3 counterexample: the `/generate-card` scheme logic is not total —
with income 200000 and requested tier "bronze" the fee-dict lookup raises
a `KeyError` (modelled as `none`), rather than silently assigning
Silver. -/
theorem c3_counterexample :
    App.generate_card .vnone .vnone 200000 (some (.vstr "bronze")) "c"
      = none := rfl

/-- C3 (amended): `create_family`'s scheme assignment is total and an
invalid requested tier silently falls back to Silver; the `/generate-card`
endpoint also returns a result for income below 100000, but with income ≥
100000 and an invalid requested tier its fee lookup raises a `KeyError`
instead of falling back. -/
theorem c3_totality_and_fallback (income : Int) (s : String)
    (fn addr : PyVal) (cn : String)
    (h1 : s ≠ "Silver") (h2 : s ≠ "Gold") (h3 : s ≠ "Platinum") :
    Utils.assign_scheme income (.vstr s) = "Silver"
    ∧ (income < 100000 →
        App.generate_card fn addr income (some (.vstr s)) cn
          = some ⟨fn, addr, income, .vstr "Silver", 0, cn, "5%"⟩)
    ∧ (100000 ≤ income →
        App.generate_card fn addr income (some (.vstr s)) cn = none) := by
  refine ⟨?_, ?_, ?_⟩
  · unfold Utils.assign_scheme
    by_cases hlt : income < 100000
    · rw [if_pos hlt]
    · rw [if_neg hlt]
      simp [h1, h2, h3]
  · intro hlt
    exact (c1_low_income_always_silver fn addr income (some (.vstr s)) cn
      .vnone hlt).1
  · intro hge
    exact ((c2_high_income_tiers fn addr income cn hge).2.2.2.2.2.2.2.2
      s h1 h2 h3)

/-- Witness for C3's amended theorem for tier "bronze" at incomes 50000
and 200000. -/
theorem c3_witness :
    Utils.assign_scheme 200000 (.vstr "bronze") = "Silver"
    ∧ App.generate_card .vnone .vnone 50000 (some (.vstr "bronze")) "c"
      = some ⟨.vnone, .vnone, 50000, .vstr "Silver", 0, "c", "5%"⟩
    ∧ App.generate_card .vnone .vnone 200000 (some (.vstr "bronze")) "c"
      = none :=
  ⟨(c3_totality_and_fallback 200000 "bronze" .vnone .vnone "c"
      (by decide) (by decide) (by decide)).1,
   (c3_totality_and_fallback 50000 "bronze" .vnone .vnone "c"
      (by decide) (by decide) (by decide)).2.1 (by decide),
   (c3_totality_and_fallback 200000 "bronze" .vnone .vnone "c"
      (by decide) (by decide) (by decide)).2.2 (by decide)⟩

/-- C4: when the family insert reports a (truthy) error, `create_family`
returns exactly that error and its storage trace is the single family
insert — the member insert is never attempted, whatever the (non-empty)
member list. -/
theorem c4_family_insert_error_stops (uid fn addr cs : PyVal) (inc : Int)
    (members : List PyVal) (u : Nat) (famResp memResp : Resp) (e : PyVal)
    (_hm : members ≠ []) (he : famResp.error = some e)
    (ht : truthy e = true) :
    Utils.create_family uid fn addr inc members cs u famResp memResp
      = (.error e,
         [.insertFamily ⟨uid, fn, addr, inc, Utils.assign_scheme inc cs,
            Utils._generate_card_number u⟩]) := by
  have hE : errTruthy famResp = true := by
    unfold errTruthy
    rw [he]
    exact ht
  unfold Utils.create_family
  rw [if_pos hE, he]
  rfl

/-- Witness for C4: a one-member list and a failing family insert. -/
theorem c4_witness :
    Utils.create_family .vnone (.vstr "F") (.vstr "A") 0 [.vdict []]
        .vnone 0 ⟨none, some (.vstr "boom")⟩ ⟨none, none⟩
      = (.error (.vstr "boom"),
         [.insertFamily ⟨.vnone, .vstr "F", .vstr "A", 0, "Silver",
            "CARD-0000000000"⟩]) :=
  c4_family_insert_error_stops .vnone (.vstr "F") (.vstr "A") .vnone 0
    [.vdict []] 0 ⟨none, some (.vstr "boom")⟩ ⟨none, none⟩ (.vstr "boom")
    (by simp) rfl rfl

/-- C5: the token-resolution logic of `require_auth` resolves the user id
"u1" from both response shapes — id nested under `data.user` and id
directly under `data` — and turns an empty `data` dict into a 401
authentication error. -/
theorem c5_token_response_shapes :
    App1.resolve_user_id
        (.vdict [("data", .vdict [("user", .vdict [("id", .vstr "u1")])])])
      = .ok (.vstr "u1")
    ∧ App1.resolve_user_id (.vdict [("data", .vdict [("id", .vstr "u1")])])
      = .ok (.vstr "u1")
    ∧ App1.resolve_user_id (.vdict [("data", .vdict [])])
      = .err (.vstr "Invalid token / could not resolve user") 401 :=
  ⟨rfl, rfl, rfl⟩

/-- C6: on every bearer-protected route, an absent or malformed
Authorization header (any header from which `_get_bearer_token` extracts no
token) yields status 401 with the body
`\x7b"error": "Missing Authorization Bearer token"\x7d` and an empty
storage-operation trace: the repository layer is never invoked. -/
theorem c6_missing_bearer_rejected (authHeader : Option String)
    (verify : String → PyVal) (fn addr cs : PyVal) (inc : Int)
    (members : List PyVal) (u : Nat) (famResp memResp selResp updResp : Resp)
    (fid mid : Int) (updates mupdates : List (String × PyVal))
    (h : App1._get_bearer_token (authHeader.getD "") = none) :
    App1.route_create_family authHeader verify fn addr inc members cs u
        famResp memResp
      = (401, .vdict [("error", .vstr "Missing Authorization Bearer token")],
         [])
    ∧ App1.route_get_families authHeader verify selResp
      = (401, .vdict [("error", .vstr "Missing Authorization Bearer token")],
         [])
    ∧ App1.route_update_family authHeader verify fid updates updResp
      = (401, .vdict [("error", .vstr "Missing Authorization Bearer token")],
         [])
    ∧ App1.route_update_member authHeader verify mid mupdates updResp
      = (401, .vdict [("error", .vstr "Missing Authorization Bearer token")],
         [])
    ∧ App1.route_delete_member authHeader verify mid updResp
      = (401, .vdict [("error", .vstr "Missing Authorization Bearer token")],
         []) := by
  have hra : App1.require_auth authHeader verify
      = .err (.vstr "Missing Authorization Bearer token") 401 := by
    unfold App1.require_auth
    rw [h]
  refine ⟨?_, ?_, ?_, ?_, ?_⟩ <;>
    simp [App1.route_create_family, App1.route_get_families,
      App1.route_update_family, App1.route_update_member,
      App1.route_delete_member, hra]

/-- Witness for C6 with the malformed header "Basic abc". -/
theorem c6_witness :
    App1.route_create_family (some "Basic abc") (fun _ => .vnone) .vnone
        .vnone 0 [] .vnone 0 ⟨none, none⟩ ⟨none, none⟩
      = (401, .vdict [("error", .vstr "Missing Authorization Bearer token")],
         [])
    ∧ App1.route_get_families (some "Basic abc") (fun _ => .vnone)
        ⟨none, none⟩
      = (401, .vdict [("error", .vstr "Missing Authorization Bearer token")],
         [])
    ∧ App1.route_update_family (some "Basic abc") (fun _ => .vnone) 1 []
        ⟨none, none⟩
      = (401, .vdict [("error", .vstr "Missing Authorization Bearer token")],
         [])
    ∧ App1.route_update_member (some "Basic abc") (fun _ => .vnone) 1 []
        ⟨none, none⟩
      = (401, .vdict [("error", .vstr "Missing Authorization Bearer token")],
         [])
    ∧ App1.route_delete_member (some "Basic abc") (fun _ => .vnone) 1
        ⟨none, none⟩
      = (401, .vdict [("error", .vstr "Missing Authorization Bearer token")],
         []) :=
  c6_missing_bearer_rejected (some "Basic abc") (fun _ => .vnone) .vnone
    .vnone .vnone 0 [] 0 ⟨none, none⟩ ⟨none, none⟩ ⟨none, none⟩ ⟨none, none⟩
    1 1 [] [] rfl

/-- C7 counterexample: `update_family` passes the caller's fields verbatim,
so an update whose partial fields include `card_number` changes the stored
card number: the row's card number goes from "CARD-OLD" to "CARD-NEW". -/
theorem c7_counterexample :
    (Utils.update_family 1 [("card_number", .vstr "CARD-NEW")]
        ⟨some [], none⟩).2
      = [.updateFamily 1 [("card_number", .vstr "CARD-NEW")]]
    ∧ Storage.updateRows
        [.vdict [("id", .vint 1), ("card_number", .vstr "CARD-OLD")]]
        (.vint 1) [("card_number", .vstr "CARD-NEW")]
      = [.vdict [("id", .vint 1), ("card_number", .vstr "CARD-NEW")]] :=
  ⟨rfl, rfl⟩

/-- C7 (amended): the card number is generated during `create_family` —
every trace starts with the family insert whose payload carries
`_generate_card_number` of the random value — and `update_family` only
forwards the caller's fields, so every update whose partial fields do not
mention `card_number` leaves every stored row's card number unchanged; an
update that does mention `card_number` can overwrite it. -/
theorem c7_card_number_frame (famId : Int)
    (updates : List (String × PyVal)) (table : List PyVal) (updResp : Resp)
    (uid fn addr cs : PyVal) (inc : Int) (members : List PyVal) (u : Nat)
    (famResp memResp : Resp)
    (h : "card_number" ∉ updates.map Prod.fst) :
    (Storage.updateRows table (.vint famId) updates).map
        (fun r => dget r "card_number")
      = table.map (fun r => dget r "card_number")
    ∧ (Utils.update_family famId updates updResp).2
      = [.updateFamily famId updates]
    ∧ (Utils.create_family uid fn addr inc members cs u famResp
          memResp).2.head?
      = some (.insertFamily ⟨uid, fn, addr, inc,
          Utils.assign_scheme inc cs, Utils._generate_card_number u⟩) := by
  refine ⟨?_, rfl, ?_⟩
  · unfold Storage.updateRows
    rw [List.map_map]
    apply List.map_congr_left
    intro r _
    by_cases hb : PyVal.beq (dget r "id") (.vint famId) = true
    · simp [hb, dget_applyFields updates r "card_number" h]
    · simp [hb]
  · unfold Utils.create_family
    by_cases hE : errTruthy famResp
    · rw [if_pos hE]
      rfl
    · rw [if_neg hE]
      cases hd : famResp.data with
      | none => rfl
      | some rows =>
        cases rows with
        | nil => rfl
        | cons r rs =>
          by_cases hmem : members.isEmpty
          · simp [hmem]
          · by_cases hM : errTruthy memResp
            · simp [hmem, hM]
            · simp [hmem, hM]

/-- Witness for C7's amended theorem: an update of the address only. -/
theorem c7_witness :
    (Storage.updateRows
        [.vdict [("id", .vint 1), ("card_number", .vstr "CARD-OLD")]]
        (.vint 1) [("address", .vstr "new addr")]).map
        (fun r => dget r "card_number")
      = ([.vdict [("id", .vint 1), ("card_number", .vstr "CARD-OLD")]] :
          List PyVal).map (fun r => dget r "card_number")
    ∧ (Utils.update_family 1 [("address", .vstr "new addr")]
        ⟨some [], none⟩).2
      = [.updateFamily 1 [("address", .vstr "new addr")]]
    ∧ (Utils.create_family .vnone (.vstr "F") (.vstr "A") 0 [] .vnone 0
          ⟨some [.vdict [("id", .vint 7)]], none⟩ ⟨none, none⟩).2.head?
      = some (.insertFamily ⟨.vnone, .vstr "F", .vstr "A", 0, "Silver",
          "CARD-0000000000"⟩) :=
  c7_card_number_frame 1 [("address", .vstr "new addr")]
    [.vdict [("id", .vint 1), ("card_number", .vstr "CARD-OLD")]]
    ⟨some [], none⟩ .vnone (.vstr "F") (.vstr "A") .vnone 0 [] 0
    ⟨some [.vdict [("id", .vint 7)]], none⟩ ⟨none, none⟩ (by simp)

/-- C8 counterexample: the `/generate-card` endpoint of `app.py` also
issues card numbers, as the first 8 characters of the canonical lowercase
UUID string — for the 128-bit value 0 the issued card number is
"00000000", which has no "CARD-" prefix and is not uppercase. -/
theorem c8_counterexample :
    App.card_number_of 0 = "00000000"
    ∧ (App.card_number_of 0).toList.take 5 ≠ "CARD-".toList
    ∧ (App.card_number_of 0).toList.length ≠ 15 :=
  ⟨rfl, by decide, by decide⟩

/-- C8 (amended): every string returned by `utils._generate_card_number`
is the 5-character "CARD-" prefix followed by exactly 10 uppercase
hexadecimal digits of the random 128-bit value; the inline generator of
`app.py`'s `/generate-card` endpoint does not follow this format. -/
theorem c8_card_number_format (u : Nat) :
    (Utils._generate_card_number u).toList.take 5 = "CARD-".toList
    ∧ (Utils._generate_card_number u).toList.length = 15
    ∧ ((Utils._generate_card_number u).toList.drop 5).all
        (fun c => "0123456789ABCDEF".toList.contains c) = true := by
  have htl : (Utils._generate_card_number u).toList
      = 'C' :: 'A' :: 'R' :: 'D' :: '-' ::
        ((uuidHexChars u).take 10).map Char.toUpper := rfl
  have hlen : (((uuidHexChars u).take 10).map Char.toUpper).length = 10 := by
    simp [List.length_take, uuidHexChars_length]
  refine ⟨?_, ?_, ?_⟩
  · rw [htl]
    rfl
  · rw [htl]
    simp [List.length_take, uuidHexChars_length]
  · rw [htl]
    simp only [List.drop_succ_cons, List.drop_zero]
    rw [List.all_eq_true]
    intro c hc
    rw [List.mem_map] at hc
    obtain ⟨x, hx, rfl⟩ := hc
    have hx2 := List.mem_of_mem_take hx
    rw [uuidHexChars, List.mem_map] at hx2
    obtain ⟨i, _, rfl⟩ := hx2
    exact upperHexChar_mem _ (Nat.mod_lt _ (by norm_num))

/-- C9: no ownership check — two different authenticated callers issuing
the same update/delete with the same ids, fields and storage responses get
identical responses and identical storage-operation traces; the outcome
never depends on the resolved user identity. -/
theorem c9_no_ownership_check (a1 a2 : Option String)
    (v1 v2 : String → PyVal) (u1 u2 : PyVal) (fid mid : Int)
    (updates mupdates : List (String × PyVal)) (r : Resp)
    (h1 : App1.require_auth a1 v1 = .ok u1)
    (h2 : App1.require_auth a2 v2 = .ok u2) (_hne : u1 ≠ u2) :
    App1.route_update_family a1 v1 fid updates r
      = App1.route_update_family a2 v2 fid updates r
    ∧ App1.route_update_member a1 v1 mid mupdates r
      = App1.route_update_member a2 v2 mid mupdates r
    ∧ App1.route_delete_member a1 v1 mid r
      = App1.route_delete_member a2 v2 mid r
    ∧ (App1.route_update_family a1 v1 fid updates r).2.2
      = [.updateFamily fid updates] := by
  refine ⟨?_, ?_, ?_, ?_⟩ <;>
    simp [App1.route_update_family, App1.route_update_member,
      App1.route_delete_member, h1, h2, Utils.update_family,
      Utils.update_member, Utils.delete_member]

/-- Witness for C9: two distinct users "u1" and "u2". -/
theorem c9_witness :
    App1.route_update_family (some "Bearer t1")
        (fun _ => .vdict [("data", .vdict [("id", .vstr "u1")])]) 1
        [("address", .vstr "x")] ⟨some [], none⟩
      = App1.route_update_family (some "Bearer t2")
        (fun _ => .vdict [("data", .vdict [("id", .vstr "u2")])]) 1
        [("address", .vstr "x")] ⟨some [], none⟩
    ∧ App1.route_update_member (some "Bearer t1")
        (fun _ => .vdict [("data", .vdict [("id", .vstr "u1")])]) 2
        [("age", .vint 30)] ⟨some [], none⟩
      = App1.route_update_member (some "Bearer t2")
        (fun _ => .vdict [("data", .vdict [("id", .vstr "u2")])]) 2
        [("age", .vint 30)] ⟨some [], none⟩
    ∧ App1.route_delete_member (some "Bearer t1")
        (fun _ => .vdict [("data", .vdict [("id", .vstr "u1")])]) 2
        ⟨some [], none⟩
      = App1.route_delete_member (some "Bearer t2")
        (fun _ => .vdict [("data", .vdict [("id", .vstr "u2")])]) 2
        ⟨some [], none⟩
    ∧ (App1.route_update_family (some "Bearer t1")
        (fun _ => .vdict [("data", .vdict [("id", .vstr "u1")])]) 1
        [("address", .vstr "x")] ⟨some [], none⟩).2.2
      = [.updateFamily 1 [("address", .vstr "x")]] :=
  c9_no_ownership_check (some "Bearer t1") (some "Bearer t2")
    (fun _ => .vdict [("data", .vdict [("id", .vstr "u1")])])
    (fun _ => .vdict [("data", .vdict [("id", .vstr "u2")])])
    (.vstr "u1") (.vstr "u2") 1 2 [("address", .vstr "x")]
    [("age", .vint 30)] ⟨some [], none⟩ rfl rfl
    (by intro hx; injection hx with hs; exact absurd hs (by decide))

/-- C10: with an empty member list `create_family` issues only the family
insert; when that insert succeeds with a first row the result pairs that
row with an empty member list; and when the insert reports no error but
also no rows, the result is the error "Family insert returned no data."
with, again, no member insert attempted. -/
theorem c10_empty_members_and_no_data (uid fn addr cs : PyVal) (inc : Int)
    (u : Nat) (famResp famRespN memResp : Resp) (row : PyVal)
    (rest members : List PyVal) :
    (Utils.create_family uid fn addr inc [] cs u famResp memResp).2
      = [.insertFamily ⟨uid, fn, addr, inc, Utils.assign_scheme inc cs,
          Utils._generate_card_number u⟩]
    ∧ (errTruthy famResp = false → famResp.data = some (row :: rest) →
        Utils.create_family uid fn addr inc [] cs u famResp memResp
          = (.ok row (some []),
             [.insertFamily ⟨uid, fn, addr, inc, Utils.assign_scheme inc cs,
                Utils._generate_card_number u⟩]))
    ∧ (errTruthy famRespN = false →
        famRespN.data = none ∨ famRespN.data = some [] →
        Utils.create_family uid fn addr inc members cs u famRespN memResp
          = (.error (.vstr "Family insert returned no data."),
             [.insertFamily ⟨uid, fn, addr, inc, Utils.assign_scheme inc cs,
                Utils._generate_card_number u⟩])) := by
  refine ⟨?_, ?_, ?_⟩
  · unfold Utils.create_family
    by_cases hE : errTruthy famResp
    · rw [if_pos hE]
    · rw [if_neg hE]
      cases hd : famResp.data with
      | none => rfl
      | some rows =>
        cases rows with
        | nil => rfl
        | cons r rs => rfl
  · intro hE hd
    unfold Utils.create_family
    rw [if_neg (by rw [hE]; exact Bool.false_ne_true), hd]
    rfl
  · intro hE hd
    unfold Utils.create_family
    rw [if_neg (by rw [hE]; exact Bool.false_ne_true)]
    cases hd with
    | inl h0 => rw [h0]
    | inr h0 => rw [h0]

/-- Witness for C10 covering both the success and the no-data shapes. -/
theorem c10_witness :
    (Utils.create_family .vnone (.vstr "F") (.vstr "A") 0 [] .vnone 0
        ⟨some [.vdict [("id", .vint 7)]], none⟩ ⟨none, none⟩).2
      = [.insertFamily ⟨.vnone, .vstr "F", .vstr "A", 0, "Silver",
          "CARD-0000000000"⟩]
    ∧ Utils.create_family .vnone (.vstr "F") (.vstr "A") 0 [] .vnone 0
        ⟨some [.vdict [("id", .vint 7)]], none⟩ ⟨none, none⟩
      = (.ok (.vdict [("id", .vint 7)]) (some []),
         [.insertFamily ⟨.vnone, .vstr "F", .vstr "A", 0, "Silver",
            "CARD-0000000000"⟩])
    ∧ Utils.create_family .vnone (.vstr "F") (.vstr "A") 0
        [.vdict []] .vnone 0 ⟨none, none⟩ ⟨none, none⟩
      = (.error (.vstr "Family insert returned no data."),
         [.insertFamily ⟨.vnone, .vstr "F", .vstr "A", 0, "Silver",
            "CARD-0000000000"⟩]) := by
  have H := c10_empty_members_and_no_data .vnone (.vstr "F") (.vstr "A")
    .vnone 0 0 ⟨some [.vdict [("id", .vint 7)]], none⟩ ⟨none, none⟩
    ⟨none, none⟩ (.vdict [("id", .vint 7)]) [] [.vdict []]
  exact ⟨H.1, H.2.1 rfl rfl, H.2.2 rfl (Or.inl rfl)⟩

end PatientScheme
